import Mathlib

/-!
Shallow embedding of `salary.py`: a salary/equity trade-off calculator.

The Python code is a single pure function `compute_salary_equity_tradeoff`
building a table row by row, plus a driver loop sweeping share prices
`np.arange(180, 260, 10)`.

Modelling choices:
* Python `float` arithmetic is modelled exactly over `ℚ`.
* Python `int` values are modelled as `ℤ`; the two loop-control fields
  `steps` and `vesting_years`, which the spec's data model declares to be
  positive integers (and which the source only uses non-negatively:
  `range(steps)` is empty for negative arguments), are modelled as `ℕ`.
* Python's builtin `round` rounds half to even; `roundHalfEven` below.
* Python raises `ZeroDivisionError` when a divisor (also a float divisor)
  is zero; the embedding therefore returns `Option`, with `none` standing
  for the run that dies with `ZeroDivisionError`.
-/

/-- The parameter record of `compute_salary_equity_tradeoff`
(the spec's Configuration), with the source's default values recorded in
`defaultConfiguration`. -/
structure Configuration where
  /-- Starting monthly salary in SEK (`float`). -/
  base_salary : ℚ
  /-- Number of shares offered at base salary (`int`). -/
  base_shares : ℤ
  /-- Corresponding percentage of company equity (`float`). -/
  base_percentage : ℚ
  /-- Current market value of a single share in SEK (`float`). -/
  share_price : ℚ
  /-- Salary increase per step, SEK/month (`float`). -/
  salary_increment : ℚ
  /-- Number of salary levels, i.e. rows of the output table. -/
  steps : ℕ
  /-- Equity vests over this many years. -/
  vesting_years : ℕ
deriving Repr, DecidableEq

/-- The default arguments of `compute_salary_equity_tradeoff`. -/
def defaultConfiguration : Configuration :=
  { base_salary := 42000
    base_shares := 3142
    base_percentage := 0.8
    share_price := 220
    salary_increment := 1000
    steps := 7
    vesting_years := 4 }

/-- One row of the result table: the dict
`{"Salary": salary, "N_qeso": n_qeso, "perc_qeso": perc_qeso}`. -/
structure ResultRow where
  salary : ℚ
  n_qeso : ℤ
  perc_qeso : ℚ
deriving Repr, DecidableEq

/-- Python's builtin `round` on an exact value: round to the nearest
integer, ties going to the even integer. -/
def roundHalfEven (x : ℚ) : ℤ :=
  if x - ⌊x⌋ < 1 / 2 then ⌊x⌋
  else if 1 / 2 < x - ⌊x⌋ then ⌊x⌋ + 1
  else if ⌊x⌋ % 2 = 0 then ⌊x⌋ else ⌊x⌋ + 1

/-- The body of the `for i in range(steps)` loop of
`compute_salary_equity_tradeoff`, as the value of the row it appends:
`salary`, `extra_salary_total`, `equity_value`, `n_qeso`, `perc_qeso`
exactly as in the source, with the two loop-invariant values
`base_equity_value` and `total_shares` passed in. -/
def loopRow (cfg : Configuration) (base_equity_value total_shares : ℚ)
    (i : ℕ) : ResultRow :=
  let salary := cfg.base_salary + i * cfg.salary_increment
  let extra_salary_total := (i : ℚ) * cfg.salary_increment * 12 * (cfg.vesting_years : ℚ)
  let equity_value := base_equity_value - extra_salary_total
  let n_qeso := roundHalfEven (equity_value / cfg.share_price)
  { salary := salary
    n_qeso := n_qeso
    perc_qeso := (n_qeso : ℚ) / total_shares }

/-- The `for i in range(steps)` loop: `tradeoffLoop cfg bev ts n` is the
`results` list after the iterations `i = 0, …, n-1`, or `none` if one of
the two divisions inside the loop body (`equity_value / share_price` and
`n_qeso / total_shares`) had a zero divisor, which in Python raises
`ZeroDivisionError` and aborts the whole call. -/
def tradeoffLoop (cfg : Configuration) (base_equity_value total_shares : ℚ) :
    ℕ → Option (List ResultRow)
  | 0 => some []
  | n + 1 =>
    match tradeoffLoop cfg base_equity_value total_shares n with
    | none => none
    | some results =>
      if cfg.share_price = 0 then none
      else if total_shares = 0 then none
      else some (results ++ [loopRow cfg base_equity_value total_shares n])

/-- The function `compute_salary_equity_tradeoff`: derives `base_equity_value` and
`total_shares` (whose division `base_shares / base_percentage` raises
`ZeroDivisionError` when `base_percentage = 0`), then runs the loop and
returns the list of rows (the rows of the returned DataFrame, in
insertion order); `none` models the Python call raising
`ZeroDivisionError`. -/
def compute_salary_equity_tradeoff (cfg : Configuration) :
    Option (List ResultRow) :=
  let base_equity_value := (cfg.base_shares : ℚ) * cfg.share_price
  if cfg.base_percentage = 0 then none
  else
    tradeoffLoop cfg base_equity_value
      ((cfg.base_shares : ℚ) / cfg.base_percentage) cfg.steps

/-- The sweep `np.arange start stop step` for natural arguments and a positive
step, as called by the driver: the integers
`start, start + step, …` below `stop`. -/
def arange (start stop step : ℕ) : List ℕ :=
  (List.range ((stop - start + step - 1) / step)).map (fun k => start + k * step)

/-- The module-level driver loop
`for share_price in np.arange(180, 260, 10): …`: in sweep order, one
entry per iteration, holding the share price printed in the header line
and the table printed after it. -/
def driver_output : List (ℚ × Option (List ResultRow)) :=
  (arange 180 260 10).map
    (fun p => ((p : ℚ),
      compute_salary_equity_tradeoff { defaultConfiguration with share_price := (p : ℚ) }))

/-- The default Configuration restricted to a single salary step. -/
def oneStepConfiguration : Configuration :=
  { defaultConfiguration with steps := 1 }

/-- The default Configuration restricted to two salary steps. -/
def twoStepConfiguration : Configuration :=
  { defaultConfiguration with steps := 2 }

/-- A single-step Configuration with share price 180 instead of 220. -/
def priceOneEightyConfiguration : Configuration :=
  { oneStepConfiguration with share_price := 180 }

/-- The default Configuration with `base_shares = 0`: then
`total_shares = 0 / 0.8 = 0`, and the division
`n_qeso / total_shares` in the very first loop iteration raises
`ZeroDivisionError`, although `share_price` and `base_percentage` are
both non-zero. -/
def zeroSharesConfiguration : Configuration :=
  { defaultConfiguration with base_shares := 0 }

/-- A single-step Configuration with `salary_increment = 0`. -/
def flatIncrementConfiguration : Configuration :=
  { defaultConfiguration with salary_increment := 0, steps := 1 }

/-- A Configuration whose step 1 equity quotient is the exact
half-integer `5/2`: `base_equity_value = 3 * 2 = 6`,
`extra_salary_total = 1 * (1/48) * 12 * 4 = 1`, and `(6 - 1) / 2 = 5/2`. -/
def halfTieConfiguration : Configuration :=
  { base_salary := 0
    base_shares := 3
    base_percentage := 0.8
    share_price := 2
    salary_increment := 1 / 48
    steps := 2
    vesting_years := 4 }

/-! ### Evaluation lemmas for `roundHalfEven` -/

/-- Evaluating `roundHalfEven` at a value in `[n, n + 1/2)` gives `n`. -/
theorem roundHalfEven_eq_low (n : ℤ) {x : ℚ} (h1 : (n : ℚ) ≤ x)
    (h2 : x < (n : ℚ) + 1 / 2) : roundHalfEven x = n := by
  have hfl : ⌊x⌋ = n := Int.floor_eq_iff.mpr ⟨h1, by linarith⟩
  rw [roundHalfEven, hfl, if_pos (by linarith)]

/-- Evaluating `roundHalfEven` at a value in `(n + 1/2, n + 1)` gives `n + 1`. -/
theorem roundHalfEven_eq_high (n : ℤ) {x : ℚ} (h1 : (n : ℚ) + 1 / 2 < x)
    (h2 : x < (n : ℚ) + 1) : roundHalfEven x = n + 1 := by
  have hfl : ⌊x⌋ = n := Int.floor_eq_iff.mpr ⟨by linarith, by linarith⟩
  rw [roundHalfEven, hfl, if_neg (by linarith), if_pos (by linarith)]

/-- Evaluating `roundHalfEven` at an integer gives that integer. -/
theorem roundHalfEven_intCast (n : ℤ) : roundHalfEven (n : ℚ) = n :=
  roundHalfEven_eq_low n le_rfl (by norm_num)

/-- Evaluating `roundHalfEven` at an exact half-integer `n + 1/2` gives `n` when `n` is
even and `n + 1` when `n` is odd: the tie goes to the even neighbour. -/
theorem roundHalfEven_add_half (n : ℤ) :
    roundHalfEven ((n : ℚ) + 1 / 2) = if n % 2 = 0 then n else n + 1 := by
  have hfl : ⌊(n : ℚ) + 1 / 2⌋ = n :=
    Int.floor_eq_iff.mpr ⟨by linarith, by linarith⟩
  rw [roundHalfEven, hfl, if_neg (by norm_num), if_neg (by norm_num)]

/-- Sanity check of the tie behaviour: an exact quotient of 5/2 rounds
down to the even integer 2. -/
theorem roundHalfEven_five_halves : roundHalfEven (5 / 2) = 2 := by
  rw [show (5 / 2 : ℚ) = (2 : ℤ) + 1 / 2 by norm_num, roundHalfEven_add_half]; norm_num

/-- Sanity check of the tie behaviour: an exact quotient of 7/2 rounds
up to the even integer 4. -/
theorem roundHalfEven_seven_halves : roundHalfEven (7 / 2) = 4 := by
  rw [show (7 / 2 : ℚ) = (3 : ℤ) + 1 / 2 by norm_num, roundHalfEven_add_half]; norm_num

/-- Sanity check of the tie behaviour at a negative tie: -5/2 rounds to
the even integer -2, not away from zero. -/
theorem roundHalfEven_neg_five_halves : roundHalfEven (-5 / 2) = -2 := by
  rw [show (-5 / 2 : ℚ) = (-3 : ℤ) + 1 / 2 by norm_num, roundHalfEven_add_half]; norm_num

/-- The value `roundHalfEven x` is `⌊x⌋` or `⌊x⌋ + 1`. -/
theorem roundHalfEven_bounds (x : ℚ) :
    ⌊x⌋ ≤ roundHalfEven x ∧ roundHalfEven x ≤ ⌊x⌋ + 1 := by
  rw [roundHalfEven]; split_ifs <;> omega

/-- The rounding `roundHalfEven` is monotone. -/
theorem roundHalfEven_mono {x y : ℚ} (hxy : x ≤ y) :
    roundHalfEven x ≤ roundHalfEven y := by
  rcases lt_or_eq_of_le (Int.floor_mono hxy) with hlt | heq
  · calc roundHalfEven x ≤ ⌊x⌋ + 1 := (roundHalfEven_bounds x).2
      _ ≤ ⌊y⌋ := by omega
      _ ≤ roundHalfEven y := (roundHalfEven_bounds y).1
  · rw [roundHalfEven, roundHalfEven, ← heq]
    split_ifs <;> first | omega | linarith

/-! ### Behaviour of the loop -/

/-- When the two divisors tested inside the loop body are non-zero, the
loop never aborts and returns exactly the rows for `i = 0, …, n-1`. -/
theorem tradeoffLoop_eq_some (cfg : Configuration) (bev ts : ℚ)
    (hp : cfg.share_price ≠ 0) (hts : ts ≠ 0) (n : ℕ) :
    tradeoffLoop cfg bev ts n =
      some ((List.range n).map (loopRow cfg bev ts)) := by
  induction n with
  | zero => rfl
  | succ n ih =>
    simp only [tradeoffLoop, ih, List.range_succ, List.map_append, List.map_cons,
      List.map_nil, if_neg hp, if_neg hts]

/-- A loop run that completes returns exactly the rows for
`i = 0, …, n-1`, whatever the divisors were. -/
theorem tradeoffLoop_shape (cfg : Configuration) (bev ts : ℚ) :
    ∀ n results, tradeoffLoop cfg bev ts n = some results →
      results = (List.range n).map (loopRow cfg bev ts) := by
  intro n
  induction n with
  | zero =>
    intro results h
    simp only [tradeoffLoop] at h
    injection h with h
    rw [← h]; rfl
  | succ n ih =>
    intro results h
    simp only [tradeoffLoop] at h
    split at h
    · exact Option.noConfusion h
    · rename_i rs hprev
      split_ifs at h
      injection h with h
      rw [← h, ih rs hprev, List.range_succ, List.map_append, List.map_cons,
        List.map_nil]

/-- A loop that ran at least one iteration to completion had non-zero
`share_price` and non-zero `total_shares`. -/
theorem tradeoffLoop_guards (cfg : Configuration) (bev ts : ℚ) (n : ℕ)
    (results : List ResultRow)
    (h : tradeoffLoop cfg bev ts (n + 1) = some results) :
    cfg.share_price ≠ 0 ∧ ts ≠ 0 := by
  simp only [tradeoffLoop] at h
  split at h
  · exact Option.noConfusion h
  · split_ifs at h with hp hts
    exact ⟨hp, hts⟩

/-- When `share_price`, `base_percentage` and `base_shares` are all
non-zero, the call completes normally and returns exactly the mapped
rows for `i = 0, …, steps-1`. -/
theorem tradeoff_eq_some (cfg : Configuration) (hp : cfg.share_price ≠ 0)
    (hb : cfg.base_percentage ≠ 0) (hs : cfg.base_shares ≠ 0) :
    compute_salary_equity_tradeoff cfg =
      some ((List.range cfg.steps).map
        (loopRow cfg ((cfg.base_shares : ℚ) * cfg.share_price)
          ((cfg.base_shares : ℚ) / cfg.base_percentage))) := by
  have hts : (cfg.base_shares : ℚ) / cfg.base_percentage ≠ 0 :=
    div_ne_zero (Int.cast_ne_zero.mpr hs) hb
  simp only [compute_salary_equity_tradeoff, if_neg hb]
  exact tradeoffLoop_eq_some cfg _ _ hp hts cfg.steps

/-- A call that returns a table returns exactly the mapped rows. -/
theorem tradeoff_shape (cfg : Configuration) (rows : List ResultRow)
    (h : compute_salary_equity_tradeoff cfg = some rows) :
    rows = (List.range cfg.steps).map
      (loopRow cfg ((cfg.base_shares : ℚ) * cfg.share_price)
        ((cfg.base_shares : ℚ) / cfg.base_percentage)) := by
  by_cases hb : cfg.base_percentage = 0
  · simp only [compute_salary_equity_tradeoff, if_pos hb] at h
    exact Option.noConfusion h
  · simp only [compute_salary_equity_tradeoff, if_neg hb] at h
    exact tradeoffLoop_shape cfg _ _ cfg.steps rows h

/-- A call that returns a table returns one row per step. -/
theorem tradeoff_length (cfg : Configuration) (rows : List ResultRow)
    (h : compute_salary_equity_tradeoff cfg = some rows) :
    rows.length = cfg.steps := by
  rw [tradeoff_shape cfg rows h, List.length_map, List.length_range]

/-- A call that returns a non-empty table had non-zero `share_price`,
`base_percentage`, `base_shares` and `total_shares`. -/
theorem tradeoff_guards (cfg : Configuration) (rows : List ResultRow)
    (h : compute_salary_equity_tradeoff cfg = some rows)
    (hlen : 0 < rows.length) :
    cfg.share_price ≠ 0 ∧ cfg.base_percentage ≠ 0 ∧ cfg.base_shares ≠ 0 ∧
      (cfg.base_shares : ℚ) / cfg.base_percentage ≠ 0 := by
  have hb : cfg.base_percentage ≠ 0 := by
    intro hb0
    simp only [compute_salary_equity_tradeoff, if_pos hb0] at h
    exact Option.noConfusion h
  have h' : tradeoffLoop cfg ((cfg.base_shares : ℚ) * cfg.share_price)
      ((cfg.base_shares : ℚ) / cfg.base_percentage) cfg.steps = some rows := by
    simpa only [compute_salary_equity_tradeoff, if_neg hb] using h
  have hlen' : rows.length = cfg.steps := tradeoff_length cfg rows h
  obtain ⟨n, hn⟩ : ∃ n, cfg.steps = n + 1 := by
    refine ⟨cfg.steps - 1, ?_⟩; omega
  rw [hn] at h'
  obtain ⟨hp, hts⟩ := tradeoffLoop_guards cfg _ _ n rows h'
  refine ⟨hp, hb, ?_, hts⟩
  intro hs0
  exact hts (by rw [hs0]; simp)

/-- If `total_shares = 0`, the first loop iteration already aborts with
`ZeroDivisionError`. -/
theorem tradeoffLoop_ts_zero (cfg : Configuration) (bev : ℚ) (n : ℕ) :
    tradeoffLoop cfg bev 0 (n + 1) = none := by
  induction n with
  | zero => simp [tradeoffLoop]
  | succ n ih =>
    have h : tradeoffLoop cfg bev 0 (n + 1 + 1) =
        match tradeoffLoop cfg bev 0 (n + 1) with
        | none => none
        | some results =>
          if cfg.share_price = 0 then none
          else if (0 : ℚ) = 0 then none
          else some (results ++ [loopRow cfg bev 0 (n + 1)]) := rfl
    rw [h, ih]

/-- Row `i = 0` of a run with non-zero divisors is exactly the base
data: the starting salary, the offered share count, and the offered
equity percentage. -/
theorem loopRow_zero (cfg : Configuration) (hp : cfg.share_price ≠ 0)
    (hs : cfg.base_shares ≠ 0) :
    loopRow cfg ((cfg.base_shares : ℚ) * cfg.share_price)
      ((cfg.base_shares : ℚ) / cfg.base_percentage) 0 =
      { salary := cfg.base_salary, n_qeso := cfg.base_shares,
        perc_qeso := cfg.base_percentage } := by
  have hs' : (cfg.base_shares : ℚ) ≠ 0 := Int.cast_ne_zero.mpr hs
  have h1 : ((cfg.base_shares : ℚ) * cfg.share_price -
      ((0 : ℕ) : ℚ) * cfg.salary_increment * 12 * (cfg.vesting_years : ℚ)) /
      cfg.share_price = (cfg.base_shares : ℚ) := by
    push_cast
    field_simp
  simp only [loopRow, ResultRow.mk.injEq, h1, roundHalfEven_intCast]
  refine ⟨by push_cast; ring, trivial, ?_⟩
  rw [div_div_eq_mul_div, mul_comm, mul_div_assoc, div_self hs', mul_one]

/-- Evaluate one `loopRow` from the values of its three fields. -/
theorem loopRow_eval (cfg : Configuration) (bev ts : ℚ) (i : ℕ) (n : ℤ)
    (s p : ℚ) (hsal : cfg.base_salary + (i : ℚ) * cfg.salary_increment = s)
    (hn : roundHalfEven ((bev - (i : ℚ) * cfg.salary_increment * 12 *
      (cfg.vesting_years : ℚ)) / cfg.share_price) = n)
    (hperc : (n : ℚ) / ts = p) :
    loopRow cfg bev ts i = { salary := s, n_qeso := n, perc_qeso := p } := by
  simp only [loopRow]
  rw [hsal, hn, hperc]

/-- The single-step default run returns exactly the base row. -/
theorem tradeoff_oneStep :
    compute_salary_equity_tradeoff oneStepConfiguration =
      some [{ salary := 42000, n_qeso := 3142, perc_qeso := 0.8 }] := by
  have hp : oneStepConfiguration.share_price ≠ 0 := by
    norm_num [oneStepConfiguration, defaultConfiguration]
  have hb : oneStepConfiguration.base_percentage ≠ 0 := by
    norm_num [oneStepConfiguration, defaultConfiguration]
  have hsh : oneStepConfiguration.base_shares ≠ 0 := by
    norm_num [oneStepConfiguration, defaultConfiguration]
  rw [tradeoff_eq_some oneStepConfiguration hp hb hsh,
    show oneStepConfiguration.steps = 1 from rfl, show List.range 1 = [0] from rfl,
    List.map_singleton, loopRow_zero oneStepConfiguration hp hsh]
  norm_num [oneStepConfiguration, defaultConfiguration]

/-- The single-step run at share price 180 returns exactly the base row. -/
theorem tradeoff_priceOneEighty :
    compute_salary_equity_tradeoff priceOneEightyConfiguration =
      some [{ salary := 42000, n_qeso := 3142, perc_qeso := 0.8 }] := by
  have hp : priceOneEightyConfiguration.share_price ≠ 0 := by
    norm_num [priceOneEightyConfiguration]
  have hb : priceOneEightyConfiguration.base_percentage ≠ 0 := by
    norm_num [priceOneEightyConfiguration, oneStepConfiguration, defaultConfiguration]
  have hsh : priceOneEightyConfiguration.base_shares ≠ 0 := by
    norm_num [priceOneEightyConfiguration, oneStepConfiguration, defaultConfiguration]
  rw [tradeoff_eq_some priceOneEightyConfiguration hp hb hsh,
    show priceOneEightyConfiguration.steps = 1 from rfl, show List.range 1 = [0] from rfl,
    List.map_singleton, loopRow_zero priceOneEightyConfiguration hp hsh]
  norm_num [priceOneEightyConfiguration, oneStepConfiguration, defaultConfiguration]

/-- The single-step run with `salary_increment = 0` returns exactly the
base row. -/
theorem tradeoff_flatIncrement :
    compute_salary_equity_tradeoff flatIncrementConfiguration =
      some [{ salary := 42000, n_qeso := 3142, perc_qeso := 0.8 }] := by
  have hp : flatIncrementConfiguration.share_price ≠ 0 := by
    norm_num [flatIncrementConfiguration, defaultConfiguration]
  have hb : flatIncrementConfiguration.base_percentage ≠ 0 := by
    norm_num [flatIncrementConfiguration, defaultConfiguration]
  have hsh : flatIncrementConfiguration.base_shares ≠ 0 := by
    norm_num [flatIncrementConfiguration, defaultConfiguration]
  rw [tradeoff_eq_some flatIncrementConfiguration hp hb hsh,
    show flatIncrementConfiguration.steps = 1 from rfl, show List.range 1 = [0] from rfl,
    List.map_singleton, loopRow_zero flatIncrementConfiguration hp hsh]
  norm_num [flatIncrementConfiguration, defaultConfiguration]

/-- The two-step default run: the base row and the step-1 row
`(43000, 2924, 2924 / 3927.5)`. -/
theorem tradeoff_twoStep :
    compute_salary_equity_tradeoff twoStepConfiguration =
      some [{ salary := 42000, n_qeso := 3142, perc_qeso := 0.8 },
            { salary := 43000, n_qeso := 2924, perc_qeso := 2924 / 3927.5 }] := by
  have hp : twoStepConfiguration.share_price ≠ 0 := by
    norm_num [twoStepConfiguration, defaultConfiguration]
  have hb : twoStepConfiguration.base_percentage ≠ 0 := by
    norm_num [twoStepConfiguration, defaultConfiguration]
  have hsh : twoStepConfiguration.base_shares ≠ 0 := by
    norm_num [twoStepConfiguration, defaultConfiguration]
  have hn : roundHalfEven
      (((twoStepConfiguration.base_shares : ℚ) * twoStepConfiguration.share_price -
        ((1 : ℕ) : ℚ) * twoStepConfiguration.salary_increment * 12 *
        (twoStepConfiguration.vesting_years : ℚ)) / twoStepConfiguration.share_price) =
      2924 := by
    rw [show ((twoStepConfiguration.base_shares : ℚ) * twoStepConfiguration.share_price -
        ((1 : ℕ) : ℚ) * twoStepConfiguration.salary_increment * 12 *
        (twoStepConfiguration.vesting_years : ℚ)) / twoStepConfiguration.share_price =
        643240 / 220 by norm_num [twoStepConfiguration, defaultConfiguration]]
    exact roundHalfEven_eq_high 2923 (by norm_num) (by norm_num)
  rw [tradeoff_eq_some twoStepConfiguration hp hb hsh,
    show twoStepConfiguration.steps = 2 from rfl,
    show List.range 2 = [0, 1] from rfl, List.map_cons, List.map_singleton,
    loopRow_zero twoStepConfiguration hp hsh,
    loopRow_eval twoStepConfiguration
      ((twoStepConfiguration.base_shares : ℚ) * twoStepConfiguration.share_price)
      ((twoStepConfiguration.base_shares : ℚ) / twoStepConfiguration.base_percentage)
      1 2924 43000 (2924 / 3927.5)
      (by norm_num [twoStepConfiguration, defaultConfiguration]) hn
      (by norm_num [twoStepConfiguration, defaultConfiguration])]
  norm_num [twoStepConfiguration, defaultConfiguration]

/-- The half-tie run: step 1 has equity quotient exactly `5/2`, and the
tie is resolved to the even integer 2. -/
theorem tradeoff_halfTie :
    compute_salary_equity_tradeoff halfTieConfiguration =
      some [{ salary := 0, n_qeso := 3, perc_qeso := 0.8 },
            { salary := 1 / 48, n_qeso := 2, perc_qeso := 8 / 15 }] := by
  have hp : halfTieConfiguration.share_price ≠ 0 := by
    norm_num [halfTieConfiguration]
  have hb : halfTieConfiguration.base_percentage ≠ 0 := by
    norm_num [halfTieConfiguration]
  have hsh : halfTieConfiguration.base_shares ≠ 0 := by
    norm_num [halfTieConfiguration]
  have hn : roundHalfEven
      (((halfTieConfiguration.base_shares : ℚ) * halfTieConfiguration.share_price -
        ((1 : ℕ) : ℚ) * halfTieConfiguration.salary_increment * 12 *
        (halfTieConfiguration.vesting_years : ℚ)) / halfTieConfiguration.share_price) =
      2 := by
    rw [show ((halfTieConfiguration.base_shares : ℚ) * halfTieConfiguration.share_price -
        ((1 : ℕ) : ℚ) * halfTieConfiguration.salary_increment * 12 *
        (halfTieConfiguration.vesting_years : ℚ)) / halfTieConfiguration.share_price =
        ((2 : ℤ) : ℚ) + 1 / 2 by norm_num [halfTieConfiguration],
      roundHalfEven_add_half]
    norm_num
  rw [tradeoff_eq_some halfTieConfiguration hp hb hsh,
    show halfTieConfiguration.steps = 2 from rfl,
    show List.range 2 = [0, 1] from rfl, List.map_cons, List.map_singleton,
    loopRow_zero halfTieConfiguration hp hsh,
    loopRow_eval halfTieConfiguration
      ((halfTieConfiguration.base_shares : ℚ) * halfTieConfiguration.share_price)
      ((halfTieConfiguration.base_shares : ℚ) / halfTieConfiguration.base_percentage)
      1 2 (1 / 48) (8 / 15)
      (by norm_num [halfTieConfiguration]) hn
      (by norm_num [halfTieConfiguration])]
  norm_num [halfTieConfiguration]

/-- The `base_shares = 0` run dies with `ZeroDivisionError` in the first
loop iteration: `total_shares = 0 / 0.8 = 0`. -/
theorem tradeoff_zeroShares :
    compute_salary_equity_tradeoff zeroSharesConfiguration = none := by
  have hb : zeroSharesConfiguration.base_percentage ≠ 0 := by
    norm_num [zeroSharesConfiguration, defaultConfiguration]
  have hts : (zeroSharesConfiguration.base_shares : ℚ) /
      zeroSharesConfiguration.base_percentage = 0 := by
    norm_num [zeroSharesConfiguration, defaultConfiguration]
  simp only [compute_salary_equity_tradeoff, if_neg hb]
  rw [hts]
  exact tradeoffLoop_ts_zero zeroSharesConfiguration _ 6

/-! ### The claims -/

/-- C1 fails as stated: this Configuration has non-zero `share_price`
(220) and non-zero `base_percentage` (0.8) and `steps = 7`, yet the call
raises `ZeroDivisionError` (because `base_shares = 0` makes
`total_shares = 0`), so it returns no table at all — in particular not a
table of 7 rows. -/
theorem C1_counterexample :
    zeroSharesConfiguration.share_price ≠ 0 ∧
      zeroSharesConfiguration.base_percentage ≠ 0 ∧
      zeroSharesConfiguration.steps = 7 ∧
      compute_salary_equity_tradeoff zeroSharesConfiguration = none :=
  ⟨by norm_num [zeroSharesConfiguration, defaultConfiguration],
   by norm_num [zeroSharesConfiguration, defaultConfiguration],
   rfl, tradeoff_zeroShares⟩

/-- C1 (amended: `base_shares ≠ 0` added to the preconditions): for every
Configuration with non-zero `share_price`, `base_percentage` and
`base_shares`, the calculator returns a table with exactly `steps` rows
in step order, and the row at index `i` is
`Salary = base_salary + i * salary_increment`,
`N_qeso = round((base_shares * share_price -
i * salary_increment * 12 * vesting_years) / share_price)` and
`perc_qeso = N_qeso / (base_shares / base_percentage)`. -/
theorem C1_table (cfg : Configuration) (hp : cfg.share_price ≠ 0)
    (hb : cfg.base_percentage ≠ 0) (hsh : cfg.base_shares ≠ 0) :
    ∃ rows, compute_salary_equity_tradeoff cfg = some rows ∧
      rows.length = cfg.steps ∧
      ∀ i (hi : i < rows.length),
        rows.get ⟨i, hi⟩ =
          { salary := cfg.base_salary + (i : ℚ) * cfg.salary_increment
            n_qeso := roundHalfEven (((cfg.base_shares : ℚ) * cfg.share_price -
              (i : ℚ) * cfg.salary_increment * 12 * (cfg.vesting_years : ℚ)) /
              cfg.share_price)
            perc_qeso := (roundHalfEven (((cfg.base_shares : ℚ) * cfg.share_price -
              (i : ℚ) * cfg.salary_increment * 12 * (cfg.vesting_years : ℚ)) /
              cfg.share_price) : ℚ) /
              ((cfg.base_shares : ℚ) / cfg.base_percentage) } := by
  refine ⟨_, tradeoff_eq_some cfg hp hb hsh, by simp, ?_⟩
  intro i hi
  simp only [List.get_eq_getElem, List.getElem_map, List.getElem_range]
  rfl

/-- Witness for `C1_table`: the default Configuration satisfies all three
preconditions. -/
theorem C1_table_witness :
    defaultConfiguration.share_price ≠ 0 ∧
      defaultConfiguration.base_percentage ≠ 0 ∧
      defaultConfiguration.base_shares ≠ 0 ∧
      ∃ rows, compute_salary_equity_tradeoff defaultConfiguration = some rows ∧
        rows.length = defaultConfiguration.steps ∧
        ∀ i (hi : i < rows.length),
          rows.get ⟨i, hi⟩ =
            { salary := defaultConfiguration.base_salary +
                (i : ℚ) * defaultConfiguration.salary_increment
              n_qeso := roundHalfEven
                (((defaultConfiguration.base_shares : ℚ) * defaultConfiguration.share_price -
                  (i : ℚ) * defaultConfiguration.salary_increment * 12 *
                  (defaultConfiguration.vesting_years : ℚ)) /
                  defaultConfiguration.share_price)
              perc_qeso := (roundHalfEven
                (((defaultConfiguration.base_shares : ℚ) * defaultConfiguration.share_price -
                  (i : ℚ) * defaultConfiguration.salary_increment * 12 *
                  (defaultConfiguration.vesting_years : ℚ)) /
                  defaultConfiguration.share_price) : ℚ) /
                ((defaultConfiguration.base_shares : ℚ) /
                  defaultConfiguration.base_percentage) } :=
  ⟨by norm_num [defaultConfiguration], by norm_num [defaultConfiguration],
   by norm_num [defaultConfiguration],
   C1_table defaultConfiguration (by norm_num [defaultConfiguration])
     (by norm_num [defaultConfiguration]) (by norm_num [defaultConfiguration])⟩

/-- C2: at the default Configuration, `round(643240 / 220) = 2924`,
`total_shares = 3142 / 0.8 = 3927.5`, and the row at index 1 of the
returned table is `Salary = 43000`, `N_qeso = 2924`,
`perc_qeso = 2924 / 3927.5`. -/
theorem C2_row1 :
    roundHalfEven (643240 / 220) = 2924 ∧
      (3142 : ℚ) / 0.8 = 3927.5 ∧
      ((compute_salary_equity_tradeoff defaultConfiguration).getD [])[1]? =
        some { salary := 43000, n_qeso := 2924, perc_qeso := 2924 / 3927.5 } := by
  refine ⟨roundHalfEven_eq_high 2923 (by norm_num) (by norm_num), by norm_num, ?_⟩
  have hn : roundHalfEven
      (((defaultConfiguration.base_shares : ℚ) * defaultConfiguration.share_price -
        ((1 : ℕ) : ℚ) * defaultConfiguration.salary_increment * 12 *
        (defaultConfiguration.vesting_years : ℚ)) / defaultConfiguration.share_price) =
      2924 := by
    rw [show ((defaultConfiguration.base_shares : ℚ) * defaultConfiguration.share_price -
        ((1 : ℕ) : ℚ) * defaultConfiguration.salary_increment * 12 *
        (defaultConfiguration.vesting_years : ℚ)) / defaultConfiguration.share_price =
        643240 / 220 by norm_num [defaultConfiguration]]
    exact roundHalfEven_eq_high 2923 (by norm_num) (by norm_num)
  rw [tradeoff_eq_some defaultConfiguration (by norm_num [defaultConfiguration])
      (by norm_num [defaultConfiguration]) (by norm_num [defaultConfiguration]),
    Option.getD_some, show defaultConfiguration.steps = 7 from rfl,
    show List.range 7 = [0, 1, 2, 3, 4, 5, 6] from rfl]
  simp only [List.map_cons, List.map_nil, List.getElem?_cons_succ,
    List.getElem?_cons_zero]
  rw [loopRow_eval defaultConfiguration
      ((defaultConfiguration.base_shares : ℚ) * defaultConfiguration.share_price)
      ((defaultConfiguration.base_shares : ℚ) / defaultConfiguration.base_percentage)
      1 2924 43000 (2924 / 3927.5)
      (by norm_num [defaultConfiguration]) hn
      (by norm_num [defaultConfiguration])]

/-- C3: for every Configuration with non-zero `share_price` and
`base_percentage`, row 0 of a returned table reproduces the base case
exactly: `Salary = base_salary`, `N_qeso = base_shares` (the rounding is
exact there because `extra_salary_total = 0`), and
`perc_qeso = base_percentage`. -/
theorem C3_row0 (cfg : Configuration) (hp : cfg.share_price ≠ 0)
    (hb : cfg.base_percentage ≠ 0) (rows : List ResultRow)
    (hf : compute_salary_equity_tradeoff cfg = some rows)
    (hlen : 0 < rows.length) :
    rows.head? = some { salary := cfg.base_salary
                        n_qeso := cfg.base_shares
                        perc_qeso := cfg.base_percentage } := by
  obtain ⟨hp', hb', hsh', hts'⟩ := tradeoff_guards cfg rows hf hlen
  have hlen' : rows.length = cfg.steps := tradeoff_length cfg rows hf
  obtain ⟨n, hn⟩ : ∃ n, cfg.steps = n + 1 := ⟨cfg.steps - 1, by omega⟩
  rw [tradeoff_shape cfg rows hf, hn, List.range_succ_eq_map, List.map_cons,
    List.head?_cons, loopRow_zero cfg hp' hsh']

/-- Witness for `C3_row0`: the single-step default run. -/
theorem C3_row0_witness :
    oneStepConfiguration.share_price ≠ 0 ∧
      oneStepConfiguration.base_percentage ≠ 0 ∧
      compute_salary_equity_tradeoff oneStepConfiguration =
        some [{ salary := 42000, n_qeso := 3142, perc_qeso := 0.8 }] ∧
      0 < ([{ salary := 42000, n_qeso := 3142, perc_qeso := 0.8 }] :
        List ResultRow).length ∧
      ([{ salary := 42000, n_qeso := 3142, perc_qeso := 0.8 }] :
        List ResultRow).head? =
        some { salary := oneStepConfiguration.base_salary
               n_qeso := oneStepConfiguration.base_shares
               perc_qeso := oneStepConfiguration.base_percentage } :=
  ⟨by norm_num [oneStepConfiguration, defaultConfiguration],
   by norm_num [oneStepConfiguration, defaultConfiguration],
   tradeoff_oneStep, by simp,
   C3_row0 oneStepConfiguration
     (by norm_num [oneStepConfiguration, defaultConfiguration])
     (by norm_num [oneStepConfiguration, defaultConfiguration])
     _ tradeoff_oneStep (by simp)⟩

/-- C4: for every Configuration with `salary_increment > 0` and
`share_price > 0`, any two consecutive rows of a returned table satisfy:
the later salary is the earlier salary plus `salary_increment`, and the
later `N_qeso` is at most the earlier `N_qeso`. -/
theorem C4_monotone (cfg : Configuration) (hinc : 0 < cfg.salary_increment)
    (hp : 0 < cfg.share_price) (rows : List ResultRow)
    (hf : compute_salary_equity_tradeoff cfg = some rows)
    (i : ℕ) (hi : i + 1 < rows.length) :
    (rows.get ⟨i + 1, hi⟩).salary =
        (rows.get ⟨i, Nat.lt_of_succ_lt hi⟩).salary + cfg.salary_increment ∧
      (rows.get ⟨i + 1, hi⟩).n_qeso ≤ (rows.get ⟨i, Nat.lt_of_succ_lt hi⟩).n_qeso := by
  have hshape := tradeoff_shape cfg rows hf
  subst hshape
  simp only [List.get_eq_getElem, List.getElem_map, List.getElem_range, loopRow]
  constructor
  · push_cast; ring
  · apply roundHalfEven_mono
    rw [div_le_div_iff_of_pos_right hp]
    have hvy : (0 : ℚ) ≤ (cfg.vesting_years : ℚ) := Nat.cast_nonneg _
    have h0 : (0 : ℚ) ≤ cfg.salary_increment * 12 * (cfg.vesting_years : ℚ) :=
      mul_nonneg (mul_nonneg hinc.le (by norm_num)) hvy
    push_cast
    nlinarith [h0]

/-- Witness for `C4_monotone`: the two-step default run at `i = 0`. -/
theorem C4_monotone_witness :
    (0 : ℚ) < twoStepConfiguration.salary_increment ∧
      (0 : ℚ) < twoStepConfiguration.share_price ∧
      compute_salary_equity_tradeoff twoStepConfiguration =
        some [{ salary := 42000, n_qeso := 3142, perc_qeso := 0.8 },
              { salary := 43000, n_qeso := 2924, perc_qeso := 2924 / 3927.5 }] ∧
      (0 : ℕ) + 1 < ([{ salary := 42000, n_qeso := 3142, perc_qeso := 0.8 },
              { salary := 43000, n_qeso := 2924, perc_qeso := 2924 / 3927.5 }] :
        List ResultRow).length ∧
      ((([{ salary := 42000, n_qeso := 3142, perc_qeso := 0.8 },
           { salary := 43000, n_qeso := 2924, perc_qeso := 2924 / 3927.5 }] :
          List ResultRow).get ⟨0 + 1, Nat.one_lt_two⟩).salary =
        (([{ salary := 42000, n_qeso := 3142, perc_qeso := 0.8 },
            { salary := 43000, n_qeso := 2924, perc_qeso := 2924 / 3927.5 }] :
          List ResultRow).get ⟨0, Nat.zero_lt_two⟩).salary +
          twoStepConfiguration.salary_increment ∧
       (([{ salary := 42000, n_qeso := 3142, perc_qeso := 0.8 },
           { salary := 43000, n_qeso := 2924, perc_qeso := 2924 / 3927.5 }] :
          List ResultRow).get ⟨0 + 1, Nat.one_lt_two⟩).n_qeso ≤
        (([{ salary := 42000, n_qeso := 3142, perc_qeso := 0.8 },
            { salary := 43000, n_qeso := 2924, perc_qeso := 2924 / 3927.5 }] :
          List ResultRow).get ⟨0, Nat.zero_lt_two⟩).n_qeso) :=
  ⟨by norm_num [twoStepConfiguration, defaultConfiguration],
   by norm_num [twoStepConfiguration, defaultConfiguration],
   tradeoff_twoStep, Nat.one_lt_two,
   C4_monotone twoStepConfiguration
     (by norm_num [twoStepConfiguration, defaultConfiguration])
     (by norm_num [twoStepConfiguration, defaultConfiguration])
     _ tradeoff_twoStep 0 Nat.one_lt_two⟩

/-- C5: the driver performs exactly 8 iterations, at the share prices
180, 190, 200, 210, 220, 230, 240, 250 in strictly ascending sweep
order, and each iteration prints the header price `p` followed by the
table of one calculator call at the otherwise-default Configuration with
`share_price = p`. -/
theorem C5_driver :
    driver_output.length = 8 ∧
      driver_output.map Prod.fst = [180, 190, 200, 210, 220, 230, 240, 250] ∧
      List.Chain' (fun a b => a < b) (driver_output.map Prod.fst) ∧
      driver_output = ([180, 190, 200, 210, 220, 230, 240, 250] : List ℚ).map
        (fun p => (p, compute_salary_equity_tradeoff
          { defaultConfiguration with share_price := p })) := by
  have hlist : (arange 180 260 10).map (Nat.cast : ℕ → ℚ) =
      [180, 190, 200, 210, 220, 230, 240, 250] := by
    simp only [show arange 180 260 10 = [180, 190, 200, 210, 220, 230, 240, 250] from rfl,
      List.map_cons, List.map_nil, Nat.cast_ofNat]
  have hd : driver_output = ([180, 190, 200, 210, 220, 230, 240, 250] : List ℚ).map
      (fun p => (p, compute_salary_equity_tradeoff
        { defaultConfiguration with share_price := p })) := by
    rw [← hlist, List.map_map]
    rfl
  refine ⟨by rw [hd]; rfl, by rw [hd]; rfl, ?_, hd⟩
  rw [hd]
  norm_num [List.chain'_cons, List.chain'_singleton]

/-- C6 fails as stated: this Configuration has non-zero `share_price`
and `base_percentage`, yet the call still hits a division by zero — the
third division of the function, `n_qeso / total_shares`, has divisor
`total_shares = base_shares / base_percentage = 0 / 0.8 = 0`. -/
theorem C6_counterexample :
    zeroSharesConfiguration.share_price ≠ 0 ∧
      zeroSharesConfiguration.base_percentage ≠ 0 ∧
      compute_salary_equity_tradeoff zeroSharesConfiguration = none :=
  ⟨by norm_num [zeroSharesConfiguration, defaultConfiguration],
   by norm_num [zeroSharesConfiguration, defaultConfiguration],
   tradeoff_zeroShares⟩

/-- C6 (amended: `base_shares ≠ 0` added — the function also divides by
`total_shares = base_shares / base_percentage`, so that divisor must be
non-zero too): for every Configuration with non-zero `share_price`,
`base_percentage` and `base_shares`, the calculator completes without
raising: no division by zero occurs and a table is returned. -/
theorem C6_no_division_by_zero (cfg : Configuration)
    (hp : cfg.share_price ≠ 0) (hb : cfg.base_percentage ≠ 0)
    (hsh : cfg.base_shares ≠ 0) :
    (compute_salary_equity_tradeoff cfg).isSome := by
  rw [tradeoff_eq_some cfg hp hb hsh]
  rfl

/-- Witness for `C6_no_division_by_zero` at the default Configuration. -/
theorem C6_no_division_by_zero_witness :
    defaultConfiguration.share_price ≠ 0 ∧
      defaultConfiguration.base_percentage ≠ 0 ∧
      defaultConfiguration.base_shares ≠ 0 ∧
      (compute_salary_equity_tradeoff defaultConfiguration).isSome :=
  ⟨by norm_num [defaultConfiguration], by norm_num [defaultConfiguration],
   by norm_num [defaultConfiguration],
   C6_no_division_by_zero defaultConfiguration (by norm_num [defaultConfiguration])
     (by norm_num [defaultConfiguration]) (by norm_num [defaultConfiguration])⟩

/-- C7: boundary behaviour. With `steps = 1` (and non-zero `share_price`
and `base_percentage`) a returned table is exactly the single base row;
and with `salary_increment = 0` every row of a returned table keeps
`Salary = base_salary` and `N_qeso = base_shares`. -/
theorem C7_boundary (cfg : Configuration) :
    (cfg.steps = 1 → cfg.share_price ≠ 0 → cfg.base_percentage ≠ 0 →
      ∀ rows, compute_salary_equity_tradeoff cfg = some rows →
        rows = [{ salary := cfg.base_salary
                  n_qeso := cfg.base_shares
                  perc_qeso := cfg.base_percentage }]) ∧
    (cfg.salary_increment = 0 →
      ∀ rows, compute_salary_equity_tradeoff cfg = some rows →
        ∀ r ∈ rows, r.salary = cfg.base_salary ∧ r.n_qeso = cfg.base_shares) := by
  constructor
  · intro hsteps hp hb rows hf
    have hlen : rows.length = 1 := by rw [tradeoff_length cfg rows hf, hsteps]
    obtain ⟨hp', hb', hsh', hts'⟩ := tradeoff_guards cfg rows hf (by omega)
    rw [tradeoff_shape cfg rows hf, hsteps, show List.range 1 = [0] from rfl,
      List.map_singleton, loopRow_zero cfg hp' hsh']
  · intro hinc rows hf r hr
    have hlen : 0 < rows.length := List.length_pos.mpr (List.ne_nil_of_mem hr)
    obtain ⟨hp', hb', hsh', hts'⟩ := tradeoff_guards cfg rows hf hlen
    rw [tradeoff_shape cfg rows hf] at hr
    simp only [List.mem_map, List.mem_range] at hr
    obtain ⟨i, hi, hrow⟩ := hr
    subst hrow
    constructor
    · simp only [loopRow]
      rw [hinc]
      ring
    · simp only [loopRow]
      have harg : ((cfg.base_shares : ℚ) * cfg.share_price -
          (i : ℚ) * cfg.salary_increment * 12 * (cfg.vesting_years : ℚ)) /
          cfg.share_price = (cfg.base_shares : ℚ) := by
        rw [hinc]
        field_simp
      rw [harg, roundHalfEven_intCast]

/-- Witness for `C7_boundary`: the run with `steps = 1` and
`salary_increment = 0`. -/
theorem C7_boundary_witness :
    flatIncrementConfiguration.steps = 1 ∧
      flatIncrementConfiguration.share_price ≠ 0 ∧
      flatIncrementConfiguration.base_percentage ≠ 0 ∧
      flatIncrementConfiguration.salary_increment = 0 ∧
      compute_salary_equity_tradeoff flatIncrementConfiguration =
        some [{ salary := 42000, n_qeso := 3142, perc_qeso := 0.8 }] ∧
      ([{ salary := 42000, n_qeso := 3142, perc_qeso := 0.8 }] : List ResultRow) =
        [{ salary := flatIncrementConfiguration.base_salary
           n_qeso := flatIncrementConfiguration.base_shares
           perc_qeso := flatIncrementConfiguration.base_percentage }] ∧
      ∀ r ∈ ([{ salary := 42000, n_qeso := 3142, perc_qeso := 0.8 }] :
        List ResultRow),
        r.salary = flatIncrementConfiguration.base_salary ∧
          r.n_qeso = flatIncrementConfiguration.base_shares :=
  ⟨rfl,
   by norm_num [flatIncrementConfiguration, defaultConfiguration],
   by norm_num [flatIncrementConfiguration, defaultConfiguration],
   rfl, tradeoff_flatIncrement,
   (C7_boundary flatIncrementConfiguration).1 rfl
     (by norm_num [flatIncrementConfiguration, defaultConfiguration])
     (by norm_num [flatIncrementConfiguration, defaultConfiguration])
     _ tradeoff_flatIncrement,
   (C7_boundary flatIncrementConfiguration).2 rfl _ tradeoff_flatIncrement⟩

/-- C8: the calculator is deterministic and has no hidden state — two
calls on Configurations with identical field values return identical
tables. -/
theorem C8_deterministic (c1 c2 : Configuration)
    (h1 : c1.base_salary = c2.base_salary)
    (h2 : c1.base_shares = c2.base_shares)
    (h3 : c1.base_percentage = c2.base_percentage)
    (h4 : c1.share_price = c2.share_price)
    (h5 : c1.salary_increment = c2.salary_increment)
    (h6 : c1.steps = c2.steps)
    (h7 : c1.vesting_years = c2.vesting_years) :
    compute_salary_equity_tradeoff c1 = compute_salary_equity_tradeoff c2 := by
  obtain ⟨a1, a2, a3, a4, a5, a6, a7⟩ := c1
  obtain ⟨b1, b2, b3, b4, b5, b6, b7⟩ := c2
  simp only at h1 h2 h3 h4 h5 h6 h7
  subst h1; subst h2; subst h3; subst h4; subst h5; subst h6; subst h7
  rfl

/-- Witness for `C8_deterministic`: two runs of the default
Configuration. -/
theorem C8_deterministic_witness :
    defaultConfiguration.base_salary = defaultConfiguration.base_salary ∧
      defaultConfiguration.steps = defaultConfiguration.steps ∧
      compute_salary_equity_tradeoff defaultConfiguration =
        compute_salary_equity_tradeoff defaultConfiguration :=
  ⟨rfl, rfl,
   C8_deterministic defaultConfiguration defaultConfiguration
     rfl rfl rfl rfl rfl rfl rfl⟩

/-- C9: the Salary column does not depend on `share_price` — for any two
non-zero prices substituted into the same Configuration, the tables (when
returned) agree on the salary of every row index. -/
theorem C9_salary_column (cfg : Configuration) (p1 p2 : ℚ)
    (hp1 : p1 ≠ 0) (hp2 : p2 ≠ 0) (rows1 rows2 : List ResultRow)
    (hf1 : compute_salary_equity_tradeoff { cfg with share_price := p1 } = some rows1)
    (hf2 : compute_salary_equity_tradeoff { cfg with share_price := p2 } = some rows2)
    (i : ℕ) (hi1 : i < rows1.length) (hi2 : i < rows2.length) :
    (rows1.get ⟨i, hi1⟩).salary = (rows2.get ⟨i, hi2⟩).salary := by
  have hs1 := tradeoff_shape _ _ hf1
  have hs2 := tradeoff_shape _ _ hf2
  subst hs1
  subst hs2
  simp only [List.get_eq_getElem, List.getElem_map, List.getElem_range]
  rfl

/-- Witness for `C9_salary_column`: single-step default runs at prices
220 and 180. -/
theorem C9_salary_column_witness :
    (220 : ℚ) ≠ 0 ∧ (180 : ℚ) ≠ 0 ∧
      compute_salary_equity_tradeoff { oneStepConfiguration with share_price := 220 } =
        some [{ salary := 42000, n_qeso := 3142, perc_qeso := 0.8 }] ∧
      compute_salary_equity_tradeoff { oneStepConfiguration with share_price := 180 } =
        some [{ salary := 42000, n_qeso := 3142, perc_qeso := 0.8 }] ∧
      (([{ salary := 42000, n_qeso := 3142, perc_qeso := 0.8 }] :
          List ResultRow).get ⟨0, Nat.zero_lt_one⟩).salary =
        (([{ salary := 42000, n_qeso := 3142, perc_qeso := 0.8 }] :
          List ResultRow).get ⟨0, Nat.zero_lt_one⟩).salary :=
  ⟨by norm_num, by norm_num, tradeoff_oneStep, tradeoff_priceOneEighty,
   C9_salary_column oneStepConfiguration 220 180 (by norm_num) (by norm_num)
     _ _ tradeoff_oneStep tradeoff_priceOneEighty 0 Nat.zero_lt_one Nat.zero_lt_one⟩

/-- C10: the rounding of `N_qeso` is round-half-to-even — whenever the
equity quotient of a row is the exact half-integer `k + 1/2`, the stored
`N_qeso` is even and is one of the two neighbours `k`, `k + 1`. -/
theorem C10_round_ties_to_even (cfg : Configuration) (rows : List ResultRow)
    (hf : compute_salary_equity_tradeoff cfg = some rows) (i : ℕ)
    (hi : i < rows.length) (k : ℤ)
    (hhalf : ((cfg.base_shares : ℚ) * cfg.share_price -
        (i : ℚ) * cfg.salary_increment * 12 * (cfg.vesting_years : ℚ)) /
        cfg.share_price = (k : ℚ) + 1 / 2) :
    (rows.get ⟨i, hi⟩).n_qeso % 2 = 0 ∧
      ((rows.get ⟨i, hi⟩).n_qeso = k ∨ (rows.get ⟨i, hi⟩).n_qeso = k + 1) := by
  have hshape := tradeoff_shape cfg rows hf
  subst hshape
  simp only [List.get_eq_getElem, List.getElem_map, List.getElem_range, loopRow]
  rw [hhalf, roundHalfEven_add_half]
  by_cases hk : k % 2 = 0
  · rw [if_pos hk]
    exact ⟨hk, Or.inl rfl⟩
  · rw [if_neg hk]
    exact ⟨by omega, Or.inr rfl⟩

/-- Witness for `C10_round_ties_to_even`: the half-tie run, whose step 1
quotient is exactly `5/2 = 2 + 1/2`, rounded to the even integer 2. -/
theorem C10_round_ties_to_even_witness :
    compute_salary_equity_tradeoff halfTieConfiguration =
      some [{ salary := 0, n_qeso := 3, perc_qeso := 0.8 },
            { salary := 1 / 48, n_qeso := 2, perc_qeso := 8 / 15 }] ∧
      ((halfTieConfiguration.base_shares : ℚ) * halfTieConfiguration.share_price -
        ((1 : ℕ) : ℚ) * halfTieConfiguration.salary_increment * 12 *
        (halfTieConfiguration.vesting_years : ℚ)) / halfTieConfiguration.share_price =
        ((2 : ℤ) : ℚ) + 1 / 2 ∧
      (([{ salary := 0, n_qeso := 3, perc_qeso := 0.8 },
          { salary := 1 / 48, n_qeso := 2, perc_qeso := 8 / 15 }] :
         List ResultRow).get ⟨1, Nat.one_lt_two⟩).n_qeso % 2 = 0 ∧
      ((([{ salary := 0, n_qeso := 3, perc_qeso := 0.8 },
           { salary := 1 / 48, n_qeso := 2, perc_qeso := 8 / 15 }] :
          List ResultRow).get ⟨1, Nat.one_lt_two⟩).n_qeso = 2 ∨
        (([{ salary := 0, n_qeso := 3, perc_qeso := 0.8 },
           { salary := 1 / 48, n_qeso := 2, perc_qeso := 8 / 15 }] :
          List ResultRow).get ⟨1, Nat.one_lt_two⟩).n_qeso = 2 + 1) :=
  ⟨tradeoff_halfTie, by norm_num [halfTieConfiguration],
   C10_round_ties_to_even halfTieConfiguration _ tradeoff_halfTie 1
     Nat.one_lt_two 2 (by norm_num [halfTieConfiguration])⟩
